import Mathlib

/-!
Verification development for the ONE_sync CVE ingestion pipeline.

The definitions below are shallow embeddings of the JavaScript source:
store reads/writes and other effects are passed in explicitly as
parameters (the value a `findOne` returns, the outcome of a `create` or
`save`), fallible code returns `Except`, and JSON documents become
structures with `Option` fields for optional paths.
-/

set_option autoImplicit false

namespace OneSync

/-! ## CVSS severity selection (src/models/cveModel.js, fromRawData)

A CVSS metric object as read by the extractor: `baseScore` together with
the `severity` (v2.0) and `baseSeverity` (v3.0 / v3.1 / v4.0) label
fields.  The extractor only copies these values, never computes with
them. -/

structure CvssData where
  baseScore : ℚ
  severity : String
  baseSeverity : String
  deriving Repr, DecidableEq

/-- One entry of a `metrics` array: it may carry any of the four CVSS
scheme payloads (`metric.cvssV2_0`, `metric.cvssV3_0`, `metric.cvssV3_1`,
`metric.cvssV4_0`). -/
structure MetricEntry where
  cvssV2_0 : Option CvssData
  cvssV3_0 : Option CvssData
  cvssV3_1 : Option CvssData
  cvssV4_0 : Option CvssData
  deriving Repr, DecidableEq

/-- A metrics-bearing container (`containers.adp` or `containers.cna` as
consulted by cveModel.js): its `metrics` field may be absent. -/
structure MetricContainer where
  metrics : Option (List MetricEntry)
  deriving Repr, DecidableEq

/-- The `containers` part of a raw record relevant to severity
extraction in src/models/cveModel.js: an optional `adp` container and an
optional `cna` container. -/
structure RawContainers where
  adp : Option MetricContainer
  cna : Option MetricContainer
  deriving Repr, DecidableEq

/-- The `cvssScore` / `severity` fields of the normalized record being
built. -/
structure SevChoice where
  cvssScore : Option ℚ
  severity : Option String
  deriving Repr, DecidableEq

/-- One container block of `fromRawData` (cveModel.js lines 170-199 and
204-231): try v2.0 first, then v3.0, then v3.1, then v4.0, each later
version overwriting `cvssScore`/`severity` when an entry carrying it is
found.  `List.find?` mirrors `metrics.find(metric => metric.cvssVX_Y)`. -/
def applyContainerMetrics (st : SevChoice) (metrics : List MetricEntry) : SevChoice :=
  let st :=
    match metrics.find? (fun m => m.cvssV2_0.isSome) with
    | some e =>
      match e.cvssV2_0 with
      | some c => { cvssScore := some c.baseScore, severity := some c.severity }
      | none => st
    | none => st
  let st :=
    match metrics.find? (fun m => m.cvssV3_0.isSome) with
    | some e =>
      match e.cvssV3_0 with
      | some c => { cvssScore := some c.baseScore, severity := some c.baseSeverity }
      | none => st
    | none => st
  let st :=
    match metrics.find? (fun m => m.cvssV3_1.isSome) with
    | some e =>
      match e.cvssV3_1 with
      | some c => { cvssScore := some c.baseScore, severity := some c.baseSeverity }
      | none => st
    | none => st
  match metrics.find? (fun m => m.cvssV4_0.isSome) with
  | some e =>
    match e.cvssV4_0 with
    | some c => { cvssScore := some c.baseScore, severity := some c.baseSeverity }
    | none => st
  | none => st

/-- Severity extraction of src/models/cveModel.js `fromRawData`
(lines 168-233): the `containers.adp.metrics` block runs first, then the
`containers.cna.metrics` block, each guarded by presence and
non-emptiness of the `metrics` array. -/
def extractSeverity (containers : RawContainers) : SevChoice :=
  let st : SevChoice := { cvssScore := none, severity := none }
  let st :=
    match containers.adp with
    | some adp =>
      match adp.metrics with
      | some l => if l.length > 0 then applyContainerMetrics st l else st
      | none => st
    | none => st
  match containers.cna with
  | some cna =>
    match cna.metrics with
    | some l => if l.length > 0 then applyContainerMetrics st l else st
    | none => st
  | none => st

/-- A metric entry carrying only a v2.0 payload. -/
def v2Entry (c : CvssData) : MetricEntry := ⟨some c, none, none, none⟩

/-- A metric entry carrying only a v3.0 payload. -/
def v30Entry (c : CvssData) : MetricEntry := ⟨none, some c, none, none⟩

/-- A metric entry carrying only a v3.1 payload. -/
def v31Entry (c : CvssData) : MetricEntry := ⟨none, none, some c, none⟩

/-- A metric entry carrying only a v4.0 payload. -/
def v4Entry (c : CvssData) : MetricEntry := ⟨none, none, none, some c⟩

/-- A raw record whose secondary (adp) container carries a CVSS v4.0
metric and whose primary (cna) container carries only a CVSS v2.0
metric. -/
def adpV4cnaV2 : RawContainers :=
  { adp := some { metrics := some [v4Entry ⟨10, "", "CRITICAL"⟩] }
  , cna := some { metrics := some [v2Entry ⟨5, "MEDIUM", ""⟩] } }

/-! ## Keyed association lists

Both the JavaScript `Map` used by the version merge and the Mongo
collections reached through `findOne` / `findOneAndUpdate` behave as
insertion-ordered key/value lists where a write replaces the value of
an existing key in place and appends a fresh key at the end.  The
helpers here capture that shared behaviour once. -/

/-- Left-biased choice between two optional values. -/
def optOr {β : Type} (a b : Option β) : Option β :=
  match a with
  | some x => some x
  | none => b

/-- Rewrite an entry to carry `d` when its key is `k`. -/
def replaceEntry {β : Type} (k : String) (d : β) (p : String × β) : String × β :=
  if p.1 = k then (k, d) else p

/-- Whether some entry has key `k`. -/
def anyKey {β : Type} (m : List (String × β)) (k : String) : Bool :=
  m.any (fun p => p.1 = k)

/-- Write `d` under key `k`: replace in place when the key exists,
append otherwise. -/
def setEntry {β : Type} (m : List (String × β)) (k : String) (d : β) : List (String × β) :=
  if anyKey m k then m.map (replaceEntry k d) else m ++ [(k, d)]

/-- First value stored under key `k`. -/
def findEntry {β : Type} (m : List (String × β)) (k : String) : Option β :=
  match m.find? (fun p => p.1 = k) with
  | some p => some p.2
  | none => none

/-- How many entries carry key `k`. -/
def keyCount {β : Type} (m : List (String × β)) (k : String) : Nat :=
  (m.filter (fun p => p.1 = k)).length

/-! ## Entity resolution (src/unnamed/part_003 `findOrCreateVendor`,
src/unnamed/part_008 `Product.findOrCreate`)

Store interactions are passed in explicitly: the result of each
`findOne`, and the outcome of `create` / `save`.  Mongo's duplicate-key
error (`code === 11000`) and mongoose's `VersionError` become explicit
outcome constructors.  Timestamps are abstract `Nat` instants. -/

/-- Outcome of a `Model.create(...)` call: success, a duplicate-key
(unique-constraint) violation with `code === 11000`, or any other
error carrying its message. -/
inductive CreateOutcome where
  | ok
  | dupKey
  | otherError (msg : String)
  deriving Repr, DecidableEq

/-- Outcome of a `document.save()` call: success, a mongoose
`VersionError` (optimistic-concurrency conflict), or any other error
carrying its message. -/
inductive SaveOutcome where
  | ok
  | versionError
  | otherError (msg : String)
  deriving Repr, DecidableEq

/-- A vendor document (src/models/vendorModel.js). -/
structure Vendor where
  name : String
  productCount : Nat
  cveCount : Nat
  firstSeen : Nat
  lastSeen : Nat
  deriving Repr, DecidableEq

/-- The function `findOrCreateVendor` from src/unnamed/part_003 (lines 27-72).
`find1` is what the initial `Vendor.findOne({name})` returns,
`createOut` the outcome of `Vendor.create(...)` (consulted only when
`find1` finds nothing), `find2` what the re-read after a duplicate-key
error returns.  An `"n/a"` vendor short-circuits to `null`.  Any vendor
that is returned first gets its `lastSeen` touched and saved (the save
is modelled as succeeding; the claims under verification concern the
create-race recovery). -/
def findOrCreateVendor (vendorName : String) (now : Nat)
    (find1 : Option Vendor) (createOut : CreateOutcome) (find2 : Option Vendor) :
    Except String (Option Vendor) :=
  if vendorName = "n/a" then .ok none
  else
    match find1 with
    | some v => .ok (some { v with lastSeen := now })
    | none =>
      match createOut with
      | .ok =>
        .ok (some { name := vendorName, productCount := 0, cveCount := 0
                  , firstSeen := now, lastSeen := now })
      | .dupKey =>
        match find2 with
        | some v => .ok (some { v with lastSeen := now })
        | none => .error ("Failed to find vendor " ++ vendorName ++ " after duplicate key error")
      | .otherError msg => .error msg

/-- One entry of a product's `versions` array. -/
structure VersionEntry where
  version : String
  affected : Bool
  deriving Repr, DecidableEq

/-- A product document (src/unnamed/part_008).  The owning vendor's
ObjectId is modelled as a `Nat`. -/
structure Product where
  name : String
  vendor : Nat
  vendorName : String
  versions : List VersionEntry
  cveCount : Nat
  firstSeen : Nat
  lastSeen : Nat
  deriving Repr, DecidableEq

/-- The argument object of `Product.findOrCreate`. -/
structure ProductData where
  name : String
  vendorId : Nat
  vendorName : String
  versions : List VersionEntry
  deriving Repr, DecidableEq

/-- The version merge of `Product.findOrCreate` (part_008 lines 87-101):
`new Map(product.versions.map(v => [v.version, v.affected]))` loads the
stored entries into an insertion-ordered map, then each newly supplied
entry is `set` over it, and the map is read back out as the merged
`versions` array. -/
def mergeVersions (stored newVersions : List VersionEntry) : List VersionEntry :=
  let m := stored.foldl (fun m v => setEntry m v.version v.affected) []
  let m := newVersions.foldl (fun m v => setEntry m v.version v.affected) m
  m.map (fun p => { version := p.1, affected := p.2 })

/-- The static method `Product.findOrCreate` from src/unnamed/part_008 (lines 45-128).
`find1` is what the initial `findOne({name, vendor})` returns,
`createOut`/`find2` the create outcome and the re-read after a
duplicate-key error (consulted only when `find1` finds nothing),
`saveOut` the outcome of `product.save()` on the update path, and
`find3` the re-read after a `VersionError`.  On the update path the
newly supplied versions are merged into the stored set only when the
new list is non-empty; after a `VersionError` the freshly fetched
document is returned as-is. -/
def Product.findOrCreate (pd : ProductData) (now : Nat)
    (find1 : Option Product) (createOut : CreateOutcome) (find2 : Option Product)
    (saveOut : SaveOutcome) (find3 : Option Product) :
    Except String Product :=
  match find1 with
  | none =>
    match createOut with
    | .ok =>
      .ok { name := pd.name, vendor := pd.vendorId, vendorName := pd.vendorName
          , versions := pd.versions, cveCount := 0, firstSeen := now, lastSeen := now }
    | .dupKey =>
      match find2 with
      | some p => .ok p
      | none => .error ("Failed to find product " ++ pd.name ++ " after duplicate key error")
    | .otherError msg => .error msg
  | some p =>
    let p := { p with lastSeen := now }
    let p :=
      if pd.versions.length > 0 then
        { p with versions := mergeVersions p.versions pd.versions }
      else p
    match saveOut with
    | .ok => .ok p
    | .versionError =>
      match find3 with
      | some q => .ok q
      | none => .error ("Failed to find product " ++ pd.name ++ " after version error")
    | .otherError msg => .error msg

/-- First-match lookup of a version label in a `versions` array. -/
def lookupVersion (vs : List VersionEntry) (k : String) : Option Bool :=
  match vs.find? (fun v => v.version = k) with
  | some v => some v.affected
  | none => none

/-! ## Advisory upsert (src/services/dbService.js `upsertCVE`) -/

/-- The legacy-format identifier object `CVE_data_meta`; its `ID` field
may be absent. -/
structure CveDataMeta where
  ID : Option String
  deriving Repr, DecidableEq

/-- The new-format identifier object `cveMetadata`; its `cveId` field
may be absent. -/
structure CveMetadata where
  cveId : Option String
  deriving Repr, DecidableEq

/-- The two identifier paths of a raw record that matter to
`upsertCVE`'s skip decision: the legacy `CVE_data_meta` object and the
new-format `cveMetadata` object. -/
structure RawIdPaths where
  CVE_data_meta : Option CveDataMeta
  cveMetadata : Option CveMetadata
  deriving Repr, DecidableEq

/-- The identifier `upsertCVE` reads (dbService.js line 54):
`cveData.CVE_data_meta?.ID`, with JavaScript truthiness — a present but
empty string is as good as absent. -/
def extractUpsertId (r : RawIdPaths) : Option String :=
  match r.CVE_data_meta with
  | some m =>
    match m.ID with
    | some s => if s = "" then none else some s
    | none => none
  | none => none

/-- Whether `upsertCVE` skips a record (logs and returns `null` without
throwing, dbService.js lines 56-59) exactly when the identifier it
reads is falsy. -/
def upsertSkips (r : RawIdPaths) : Bool :=
  (extractUpsertId r).isNone

/-- The atomic upsert `CVE.findOneAndUpdate({cveId}, processedData, {upsert:true, ...})`
(dbService.js lines 77-81) against a keyed collection: replace the
document stored under `cveId` if one exists, otherwise insert a fresh
one. -/
def findOneAndUpdateUpsert {Doc : Type} (store : List (String × Doc))
    (cveId : String) (doc : Doc) : List (String × Doc) :=
  setEntry store cveId doc

/-- Whether the atomic upsert hit a duplicate-key race
(`upsertError.code === 11000`, dbService.js line 87). -/
inductive UpsertOutcome where
  | ok
  | dupKey
  deriving Repr, DecidableEq

/-- The store transition of dbService.js lines 76-101: the atomic
find-and-replace, with the duplicate-key fallback (re-read by `cveId`;
if present `Object.assign` the new fields over it and save, otherwise
`CVE.create` it fresh). -/
def upsertCveRecord {Doc : Type} (store : List (String × Doc))
    (cveId : String) (doc : Doc) (outcome : UpsertOutcome) : List (String × Doc) :=
  match outcome with
  | .ok => findOneAndUpdateUpsert store cveId doc
  | .dupKey =>
    if anyKey store cveId then
      store.map (replaceEntry cveId doc)
    else
      store ++ [(cveId, doc)]

/-! ## Per-record retry loop (src/services/fileService.js
`processFileWithRetry`) -/

/-- Prefix test on character lists. -/
def startsWithChars : List Char → List Char → Bool
  | [], _ => true
  | _ :: _, [] => false
  | a :: as, b :: bs => a = b && startsWithChars as bs

/-- Suffix test on character lists. -/
def endsWithChars (pat s : List Char) : Bool :=
  startsWithChars pat.reverse s.reverse

/-- Occurrence test on character lists: does `pat` occur somewhere in
`s`? -/
def listContains (pat : List Char) : List Char → Bool
  | [] => pat.isEmpty
  | c :: rest => startsWithChars pat (c :: rest) || listContains pat rest

/-- Substring test, mirroring JavaScript's
`String.prototype.includes`. -/
def containsSub (s pat : String) : Bool :=
  listContains pat.data s.data

/-- The retryability test of fileService.js lines 47-50: an error
benefits from a retry when its message mentions a duplicate key, a
missing matching document, or a version conflict. -/
def isRetryable (msg : String) : Bool :=
  containsSub msg "duplicate key" ||
  containsSub msg "No matching document found" ||
  containsSub msg "version"

/-- What one attempt at processing a record does: succeed, or throw an
error with the given message. -/
inductive Attempt where
  | success
  | failure (msg : String)
  deriving Repr, DecidableEq

/-- The observable outcome of `processFileWithRetry`: whether it
succeeded, the error message of the result object when it failed, how
many attempts ran, and the backoff delays (in ms) applied before each
re-attempt, in order. -/
structure RetryResult where
  success : Bool
  error : Option String
  tries : Nat
  delays : List Nat
  deriving Repr, DecidableEq

/-- The `while (retries <= maxRetries)` loop of fileService.js lines
31-63.  `attempt n` is what the n-th try does (`n` = value of `retries`
when the try runs).  The loop body increments `retries` on failure,
gives up when the new count exceeds `maxRetries` or the error is not
retryable, and otherwise sleeps `retries * 100` ms and loops.  `fuel`
only bounds the recursion; from the real entry point it never runs
out. -/
def retryGo (attempt : Nat → Attempt) (maxRetries : Nat) :
    Nat → Nat → List Nat → RetryResult
  | 0, retries, delays => ⟨false, none, retries, delays.reverse⟩
  | fuel + 1, retries, delays =>
    match attempt retries with
    | .success => ⟨true, none, retries + 1, delays.reverse⟩
    | .failure msg =>
      let retries' := retries + 1
      if retries' > maxRetries || !isRetryable msg then
        ⟨false, some msg, retries', delays.reverse⟩
      else
        retryGo attempt maxRetries fuel retries' (retries' * 100 :: delays)

/-- The entry point `processFileWithRetry(filePath, processFunction, maxRetries = 3)`
(fileService.js lines 28-64), observed through its attempt outcomes. -/
def processFileWithRetry (attempt : Nat → Attempt) (maxRetries : Nat := 3) : RetryResult :=
  retryGo attempt maxRetries (maxRetries + 1) 0 []

/-! ## Batch processing (src/services/fileService.js `processBatch`) -/

/-- The per-file result `processFileWithRetry` hands back to the batch:
`{success: true}` or `{success: false, error}` (the file path itself is
carried alongside). -/
inductive FileOutcome where
  | ok
  | failed (msg : String)
  deriving Repr, DecidableEq

/-- Whether a per-file outcome is a success. -/
def FileOutcome.isOk : FileOutcome → Bool
  | .ok => true
  | .failed _ => false

/-- The `files.slice(i, i + batchSize)` windowing of the
`for (let i = 0; i < totalFiles; i += batchSize)` loop, fuelled by the
list length (enough fuel whenever `batchSize > 0`). -/
def chunksGo {α : Type} (batchSize : Nat) : Nat → List α → List (List α)
  | 0, _ => []
  | _, [] => []
  | fuel + 1, l => l.take batchSize :: chunksGo batchSize fuel (l.drop batchSize)

/-- The list of windows `processBatch` walks through. -/
def chunks {α : Type} (batchSize : Nat) (l : List α) : List (List α) :=
  chunksGo batchSize l.length l

/-- The report `processBatch` returns (fileService.js line 118):
`{total, success, failed, failedFiles}`. -/
structure BatchReport where
  total : Nat
  success : Nat
  failed : Nat
  failedFiles : List String
  deriving Repr, DecidableEq

/-- The batch driver `processBatch(files, processFunction)` (fileService.js lines
71-119), observed through the per-file outcomes `proc`: windows are
processed in order, each window's successes and failures are counted,
and the paths of failed files are appended to the running list. -/
def processBatch (files : List String) (proc : String → FileOutcome)
    (batchSize : Nat) : BatchReport :=
  let step := fun (acc : Nat × Nat × List String) (batch : List String) =>
    let results := batch.map (fun fp => (fp, proc fp))
    ( acc.1 + (results.filter (fun r => r.2.isOk)).length
    , acc.2.1 + (results.filter (fun r => !r.2.isOk)).length
    , acc.2.2 ++ (results.filter (fun r => !r.2.isOk)).map (fun r => r.1) )
  let acc := (chunks batchSize files).foldl step (0, 0, [])
  { total := files.length, success := acc.1, failed := acc.2.1, failedFiles := acc.2.2 }

/-! ## Advisory counters (src/services/productService.js
`processVendorProducts`) -/

/-- One product extracted from a raw record
(`_extractedVendorProducts[i].products[j]`). -/
structure ExtractedProduct where
  productName : String
  versions : List VersionEntry
  deriving Repr, DecidableEq

/-- One vendor extracted from a raw record
(`_extractedVendorProducts[i]`). -/
structure ExtractedVendor where
  vendorName : String
  products : List ExtractedProduct
  deriving Repr, DecidableEq

/-- The counter bump `findByIdAndUpdate(id, {$inc: {cveCount: 1}})` on a counter map
keyed by entity name: bump an existing entry, or record the entity's
first count.  (In the source the key is the resolved document's
ObjectId; find-or-create resolves ids by name, so names key the same
entities.) -/
def bumpCount {κ : Type} [DecidableEq κ] (m : List (κ × Nat)) (k : κ) : List (κ × Nat) :=
  if m.any (fun p => p.1 = k) then
    m.map (fun p => if p.1 = k then (k, p.2 + 1) else p)
  else
    m ++ [(k, 1)]

/-- Current advisory count of an entity (0 before its first link). -/
def countOf {κ : Type} [DecidableEq κ] (m : List (κ × Nat)) (k : κ) : Nat :=
  match m.find? (fun p => p.1 = k) with
  | some p => p.2
  | none => 0

/-- The advisory counters: vendors keyed by name, products keyed by
(vendor name, product name). -/
structure CountState where
  vendorCve : List (String × Nat)
  productCve : List ((String × String) × Nat)
  deriving Repr, DecidableEq

/-- The counter effect of one `processVendorProducts(cveData)` call
(productService.js lines 66-131): for every extracted vendor with a
truthy name, every product with a truthy name gets `cveCount`
incremented by one, and then the vendor gets `cveCount` incremented by
one — unconditionally, on every call. -/
def processVendorProductsCounts (st : CountState)
    (extracted : List ExtractedVendor) : CountState :=
  extracted.foldl
    (fun st vd =>
      if vd.vendorName = "" then st
      else
        let st := vd.products.foldl
          (fun st pd =>
            if pd.productName = "" then st
            else { st with productCve := bumpCount st.productCve (vd.vendorName, pd.productName) })
          st
        { st with vendorCve := bumpCount st.vendorCve vd.vendorName })
    st

/-! ## Incremental change set (src/services/gitService.js
`getChangedFilesBetweenCommits`) -/

/-- Split a character list at newline characters
(`diffSummary.split('\n')`). -/
def splitOnNL : List Char → List (List Char)
  | [] => [[]]
  | c :: rest =>
    match splitOnNL rest with
    | line :: more => if c = '\n' then [] :: line :: more else (c :: line) :: more
    | [] => [[c]]

/-- A whitespace character as far as `line.trim()` is concerned. -/
def isWsChar (c : Char) : Bool :=
  c = ' ' || c = '\t' || c = '\r' || c = '\n'

/-- The cleanup `targetFolder.replace(/^\/|\/$/g, '')`: drop one leading and one
trailing slash. -/
def stripSlashes (s : String) : List Char :=
  let cs := match s.data with
    | '/' :: rest => rest
    | cs => cs
  match cs.reverse with
  | '/' :: rest => rest.reverse
  | _ => cs

/-- The diff filter `getChangedFilesBetweenCommits(oldCommit, newCommit)`
(gitService.js lines 119-141).  `diffOut` is the outcome of
`git.diff([oldCommit..newCommit, '--name-only'])`; on success its
output is split into lines, blank lines are dropped, the paths are
filtered to the target folder and the `.json` extension, and the
survivors are joined onto the local repository path.  Any error is
caught and an empty list is returned. -/
def getChangedFilesBetweenCommits (localPath targetFolder : String)
    (diffOut : Except String String) : List String :=
  match diffOut with
  | .error _ => []
  | .ok out =>
    let changedPaths := (splitOnNL out.data).filter (fun line => !line.all isWsChar)
    let targetPath := stripSlashes targetFolder
    let jsonFiles := changedPaths.filter
      (fun p => startsWithChars targetPath p && endsWithChars ".json".data p)
    jsonFiles.map (fun p => localPath ++ "/" ++ String.mk p)

/-! ## Lemmas about keyed association lists -/

theorem findEntry_nil {β : Type} (k : String) : findEntry ([] : List (String × β)) k = none := rfl

theorem findEntry_cons {β : Type} (q : String × β) (rest : List (String × β)) (k : String) :
    findEntry (q :: rest) k = if q.1 = k then some q.2 else findEntry rest k := by
  by_cases h : q.1 = k <;> simp [findEntry, List.find?, h]

theorem keyCount_nil {β : Type} (k : String) : keyCount ([] : List (String × β)) k = 0 := rfl

theorem keyCount_cons {β : Type} (q : String × β) (rest : List (String × β)) (k : String) :
    keyCount (q :: rest) k = (if q.1 = k then 1 else 0) + keyCount rest k := by
  by_cases h : q.1 = k
  · simp [keyCount, List.filter_cons, h]
    omega
  · simp [keyCount, List.filter_cons, h]

theorem anyKey_cons {β : Type} (q : String × β) (rest : List (String × β)) (k : String) :
    anyKey (q :: rest) k = (q.1 = k || anyKey rest k) := by
  simp [anyKey]

theorem anyKey_false_findEntry {β : Type} (m : List (String × β)) (k : String)
    (h : anyKey m k = false) : findEntry m k = none := by
  induction m with
  | nil => rfl
  | cons q rest ih =>
    rw [anyKey_cons] at h
    simp only [Bool.or_eq_false_iff] at h
    rw [findEntry_cons, if_neg (by simpa using h.1), ih h.2]

theorem anyKey_false_keyCount {β : Type} (m : List (String × β)) (k : String)
    (h : anyKey m k = false) : keyCount m k = 0 := by
  induction m with
  | nil => rfl
  | cons q rest ih =>
    rw [anyKey_cons] at h
    simp only [Bool.or_eq_false_iff] at h
    rw [keyCount_cons, if_neg (by simpa using h.1), ih h.2]

theorem findEntry_append_last {β : Type} (m : List (String × β)) (k : String) (d : β)
    (h : anyKey m k = false) : findEntry (m ++ [(k, d)]) k = some d := by
  induction m with
  | nil => simp [findEntry, List.find?]
  | cons q rest ih =>
    rw [anyKey_cons] at h
    simp only [Bool.or_eq_false_iff] at h
    rw [List.cons_append, findEntry_cons, if_neg (by simpa using h.1), ih h.2]

theorem keyCount_append_last {β : Type} (m : List (String × β)) (k : String) (d : β) :
    keyCount (m ++ [(k, d)]) k = keyCount m k + 1 := by
  simp [keyCount, List.filter_append, List.filter_cons]

theorem findEntry_map_replace {β : Type} (m : List (String × β)) (k : String) (d : β)
    (h : anyKey m k = true) : findEntry (m.map (replaceEntry k d)) k = some d := by
  induction m with
  | nil => simp [anyKey] at h
  | cons q rest ih =>
    by_cases hq : q.1 = k
    · rw [List.map_cons, findEntry_cons]
      simp [replaceEntry, hq]
    · rw [anyKey_cons] at h
      simp only [Bool.or_eq_true] at h
      have hr : anyKey rest k = true := by
        rcases h with h | h
        · exact absurd (by simpa using h) hq
        · exact h
      rw [List.map_cons, findEntry_cons]
      rw [show replaceEntry k d q = q by simp [replaceEntry, hq]]
      rw [if_neg hq, ih hr]

theorem keyCount_map_replace {β : Type} (m : List (String × β)) (k : String) (d : β) :
    keyCount (m.map (replaceEntry k d)) k = keyCount m k := by
  induction m with
  | nil => rfl
  | cons q rest ih =>
    by_cases hq : q.1 = k
    · rw [List.map_cons, keyCount_cons, show replaceEntry k d q = (k, d) by simp [replaceEntry, hq],
        keyCount_cons, if_pos hq, ih]
      simp
    · rw [List.map_cons, show replaceEntry k d q = q by simp [replaceEntry, hq],
        keyCount_cons, keyCount_cons, if_neg hq, ih]

theorem anyKey_true_keyCount_pos {β : Type} (m : List (String × β)) (k : String)
    (h : anyKey m k = true) : 1 ≤ keyCount m k := by
  induction m with
  | nil => simp [anyKey] at h
  | cons q rest ih =>
    by_cases hq : q.1 = k
    · rw [keyCount_cons, if_pos hq]; omega
    · rw [anyKey_cons] at h
      simp only [Bool.or_eq_true] at h
      have hr : anyKey rest k = true := by
        rcases h with h | h
        · exact absurd (by simpa using h) hq
        · exact h
      rw [keyCount_cons, if_neg hq]
      have := ih hr
      omega

theorem setEntry_of_anyKey_true {β : Type} (m : List (String × β)) (k : String) (d : β)
    (h : anyKey m k = true) : setEntry m k d = m.map (replaceEntry k d) := by
  simp [setEntry, h]

theorem setEntry_of_anyKey_false {β : Type} (m : List (String × β)) (k : String) (d : β)
    (h : anyKey m k = false) : setEntry m k d = m ++ [(k, d)] := by
  simp [setEntry, h]

theorem findEntry_setEntry_self {β : Type} (m : List (String × β)) (k : String) (d : β) :
    findEntry (setEntry m k d) k = some d := by
  cases h : anyKey m k with
  | true => rw [setEntry_of_anyKey_true m k d h]; exact findEntry_map_replace m k d h
  | false => rw [setEntry_of_anyKey_false m k d h]; exact findEntry_append_last m k d h

theorem keyCount_setEntry {β : Type} (m : List (String × β)) (k : String) (d : β)
    (h : keyCount m k ≤ 1) : keyCount (setEntry m k d) k = 1 := by
  cases hany : anyKey m k with
  | true =>
    rw [setEntry_of_anyKey_true m k d hany, keyCount_map_replace]
    have := anyKey_true_keyCount_pos m k hany
    omega
  | false =>
    rw [setEntry_of_anyKey_false m k d hany, keyCount_append_last,
      anyKey_false_keyCount m k hany]

theorem anyKey_append {β : Type} (m₁ m₂ : List (String × β)) (k : String) :
    anyKey (m₁ ++ m₂) k = (anyKey m₁ k || anyKey m₂ k) := by
  simp [anyKey]

theorem anyKey_map_replace {β : Type} (m : List (String × β)) (k : String) (d : β) :
    anyKey (m.map (replaceEntry k d)) k = anyKey m k := by
  induction m with
  | nil => rfl
  | cons q rest ih =>
    by_cases hq : q.1 = k
    · rw [List.map_cons, show replaceEntry k d q = (k, d) by simp [replaceEntry, hq],
        anyKey_cons, anyKey_cons, ih]
      simp [hq]
    · rw [List.map_cons, show replaceEntry k d q = q by simp [replaceEntry, hq],
        anyKey_cons, anyKey_cons, ih]

theorem map_replace_of_anyKey_false {β : Type} (m : List (String × β)) (k : String) (d : β)
    (h : anyKey m k = false) : m.map (replaceEntry k d) = m := by
  induction m with
  | nil => rfl
  | cons q rest ih =>
    rw [anyKey_cons] at h
    simp only [Bool.or_eq_false_iff] at h
    rw [List.map_cons, show replaceEntry k d q = q by simp [replaceEntry]; intro hq; exact absurd hq (by simpa using h.1), ih h.2]

theorem map_replace_idem {β : Type} (m : List (String × β)) (k : String) (d : β) :
    (m.map (replaceEntry k d)).map (replaceEntry k d) = m.map (replaceEntry k d) := by
  induction m with
  | nil => rfl
  | cons q rest ih =>
    by_cases hq : q.1 = k
    · rw [List.map_cons, show replaceEntry k d q = (k, d) by simp [replaceEntry, hq],
        List.map_cons, show replaceEntry k d (k, d) = (k, d) by simp [replaceEntry], ih]
    · rw [List.map_cons, show replaceEntry k d q = q by simp [replaceEntry, hq],
        List.map_cons, show replaceEntry k d q = q by simp [replaceEntry, hq], ih]

theorem setEntry_idem {β : Type} (m : List (String × β)) (k : String) (d : β) :
    setEntry (setEntry m k d) k d = setEntry m k d := by
  cases hany : anyKey m k with
  | true =>
    rw [setEntry_of_anyKey_true m k d hany,
      setEntry_of_anyKey_true _ k d (by rw [anyKey_map_replace]; exact hany), map_replace_idem]
  | false =>
    rw [setEntry_of_anyKey_false m k d hany]
    have h2 : anyKey (m ++ [(k, d)]) k = true := by
      rw [anyKey_append]
      simp [anyKey]
    rw [setEntry_of_anyKey_true _ k d h2, List.map_append, map_replace_of_anyKey_false m k d hany]
    simp [replaceEntry]

/-! ## Claim theorems -/

/-- C1 (counterexample): the claim says the severity score/label of the
highest-numbered CVSS scheme present in any container is selected, so a
record with v4.0 in the adp container and v2.0 in the cna container
would have to get the v4.0 score 10 / "CRITICAL"; the extractor instead
returns the cna container's v2.0 score 5 / "MEDIUM", because the cna
block runs last and overwrites the adp-derived choice. -/
theorem C1_counterexample :
    extractSeverity adpV4cnaV2 = { cvssScore := some 5, severity := some "MEDIUM" } ∧
    extractSeverity adpV4cnaV2 ≠ { cvssScore := some 10, severity := some "CRITICAL" } := by
  constructor
  · rfl
  · decide

/-- C1 (amended): within a single metrics container the highest-numbered
CVSS scheme wins (v2.0+v3.0+v3.1 select v3.1; v2.0+v4.0 select v4.0, in
either container alone), but across containers the cna container is
evaluated last, so whenever it carries any CVSS metric its selection
overwrites the adp-derived one regardless of scheme number. -/
theorem C1_severity_container_precedence :
    (∀ c2 c3 c31 : CvssData,
      extractSeverity
        { adp := none
        , cna := some { metrics := some [v2Entry c2, v30Entry c3, v31Entry c31] } }
        = { cvssScore := some c31.baseScore, severity := some c31.baseSeverity }) ∧
    (∀ c2 c4 : CvssData,
      extractSeverity
        { adp := none
        , cna := some { metrics := some [v2Entry c2, v4Entry c4] } }
        = { cvssScore := some c4.baseScore, severity := some c4.baseSeverity }) ∧
    (∀ c2 c4 : CvssData,
      extractSeverity
        { adp := some { metrics := some [v2Entry c2, v4Entry c4] }
        , cna := none }
        = { cvssScore := some c4.baseScore, severity := some c4.baseSeverity }) ∧
    (∀ c4 c2 : CvssData,
      extractSeverity
        { adp := some { metrics := some [v4Entry c4] }
        , cna := some { metrics := some [v2Entry c2] } }
        = { cvssScore := some c2.baseScore, severity := some c2.severity }) := by
  refine ⟨fun c2 c3 c31 => ?_, fun c2 c4 => ?_, fun c2 c4 => ?_, fun c4 c2 => ?_⟩ <;> rfl

/-- C2: when the initial read finds no entity and the create attempt
fails with a duplicate-key (uniqueness-constraint) violation, both
`findOrCreateVendor` and `Product.findOrCreate` re-read by the natural
key and return the concurrently-created entity (the vendor with its
`lastSeen` refreshed, as the source then saves it); if that re-read
finds nothing, they fail with the fatal "Failed to find ... after
duplicate key error". -/
theorem C2_create_race_recovery :
    (∀ (name : String) (now : Nat) (v : Vendor), name ≠ "n/a" →
      findOrCreateVendor name now none .dupKey (some v)
        = .ok (some { v with lastSeen := now })) ∧
    (∀ (name : String) (now : Nat), name ≠ "n/a" →
      findOrCreateVendor name now none .dupKey none
        = .error ("Failed to find vendor " ++ name ++ " after duplicate key error")) ∧
    (∀ (pd : ProductData) (now : Nat) (p : Product) (saveOut : SaveOutcome)
        (find3 : Option Product),
      Product.findOrCreate pd now none .dupKey (some p) saveOut find3 = .ok p) ∧
    (∀ (pd : ProductData) (now : Nat) (saveOut : SaveOutcome) (find3 : Option Product),
      Product.findOrCreate pd now none .dupKey none saveOut find3
        = .error ("Failed to find product " ++ pd.name ++ " after duplicate key error")) := by
  refine ⟨?_, ?_, ?_, ?_⟩
  · intro name now v h
    simp [findOrCreateVendor, h]
  · intro name now h
    simp [findOrCreateVendor, h]
  · intro pd now p saveOut find3
    rfl
  · intro pd now saveOut find3
    rfl

/-- C2 (witness): the race recovery evaluated at a concrete vendor and
product. -/
theorem C2_witness :
    findOrCreateVendor "acme" 7 none .dupKey (some ⟨"acme", 0, 2, 1, 3⟩)
      = .ok (some ⟨"acme", 0, 2, 1, 7⟩) ∧
    findOrCreateVendor "acme" 7 none .dupKey none
      = .error ("Failed to find vendor " ++ "acme" ++ " after duplicate key error") :=
  ⟨C2_create_race_recovery.1 "acme" 7 ⟨"acme", 0, 2, 1, 3⟩ (by decide),
   C2_create_race_recovery.2.1 "acme" 7 (by decide)⟩

/-- C4 (counterexample): the claim says that after an
optimistic-concurrency conflict the merge is retried on the re-read
record, so resolving the offering with the new version set
`[("2.0", true)]` would have to leave "2.0" in the returned record's
version set; `Product.findOrCreate` instead returns the re-read record
as-is, whose version set still lacks "2.0". -/
theorem C4_counterexample :
    Product.findOrCreate ⟨"widget", 1, "acme", [⟨"2.0", true⟩]⟩ 9
        (some ⟨"widget", 1, "acme", [⟨"1.0", true⟩], 0, 1, 1⟩) .ok none
        .versionError (some ⟨"widget", 1, "acme", [⟨"1.0", false⟩], 3, 1, 2⟩)
      = .ok ⟨"widget", 1, "acme", [⟨"1.0", false⟩], 3, 1, 2⟩ ∧
    lookupVersion [⟨"1.0", false⟩] "2.0" = none := by
  constructor
  · rfl
  · rfl

/-- C4 (amended): when the save of the merged offering hits a
`VersionError`, the operation re-reads the current record and returns
it unchanged — the merge is not re-applied and no second write happens,
so a second conflict cannot arise; only a failed re-read is a fatal
"Failed to find ... after version error". -/
theorem C4_version_conflict_returns_reread :
    (∀ (pd : ProductData) (now : Nat) (p q : Product) (createOut : CreateOutcome)
        (find2 : Option Product),
      Product.findOrCreate pd now (some p) createOut find2 .versionError (some q) = .ok q) ∧
    (∀ (pd : ProductData) (now : Nat) (p : Product) (createOut : CreateOutcome)
        (find2 : Option Product),
      Product.findOrCreate pd now (some p) createOut find2 .versionError none
        = .error ("Failed to find product " ++ pd.name ++ " after version error")) := by
  constructor
  · intro pd now p q createOut find2
    rfl
  · intro pd now p createOut find2
    rfl

/-- C10: when the diff between two commits fails for any reason,
`getChangedFilesBetweenCommits` catches the error and returns the empty
list instead of propagating it — the same report an empty diff output
produces, so a failed diff step is indistinguishable from an unchanged
corpus. -/
theorem C10_diff_failure_yields_empty :
    (∀ (localPath targetFolder msg : String),
      getChangedFilesBetweenCommits localPath targetFolder (.error msg) = []) ∧
    (∀ (localPath targetFolder : String),
      getChangedFilesBetweenCommits localPath targetFolder (.ok "") = []) := by
  constructor
  · intro _ _ _
    rfl
  · intro _ _
    rfl

/-- C5 (counterexample): the claim says records that carry an
identifier under either dialect's path are not skipped; a dialect-B
record whose identifier lives only at `cveMetadata.cveId` is
nevertheless skipped, because `upsertCVE` consults only the legacy
`CVE_data_meta.ID` path. -/
theorem C5_counterexample :
    upsertSkips { CVE_data_meta := none
                , cveMetadata := some { cveId := some "CVE-2025-1234" } } = true := by
  rfl

/-- C5 (amended): ingestion of a record is skipped non-fatally exactly
when the legacy-path identifier `CVE_data_meta.ID` is absent or empty —
the new-format `cveMetadata.cveId` path is never consulted (all four
branches hold for every value of the `cveMetadata` field) — and a
skipped record returns `null` without throwing, so its per-record
processing reports success: it is counted as a succeeded record in the
batch report, not a failed one. -/
theorem C5_skip_is_legacy_id_only :
    (∀ cm : Option CveMetadata, upsertSkips { CVE_data_meta := none, cveMetadata := cm } = true) ∧
    (∀ cm : Option CveMetadata,
      upsertSkips { CVE_data_meta := some { ID := none }, cveMetadata := cm } = true) ∧
    (∀ cm : Option CveMetadata,
      upsertSkips { CVE_data_meta := some { ID := some "" }, cveMetadata := cm } = true) ∧
    (∀ (cm : Option CveMetadata) (s : String), s ≠ "" →
      upsertSkips { CVE_data_meta := some { ID := some s }, cveMetadata := cm } = false) ∧
    (processFileWithRetry (fun _ => .success) 3 = ⟨true, none, 1, []⟩) := by
  refine ⟨fun cm => rfl, fun cm => rfl, fun cm => rfl, ?_, rfl⟩
  intro cm s h
  simp [upsertSkips, extractUpsertId, h]

/-- C5 (witness): a record with a non-empty legacy identifier is not
skipped even when the new-format path is absent. -/
theorem C5_witness :
    upsertSkips { CVE_data_meta := some { ID := some "CVE-1999-0001" }
                , cveMetadata := none } = false :=
  C5_skip_is_legacy_id_only.2.2.2.1 none "CVE-1999-0001" (by decide)

/-- C6: the per-record retry loop gives up after the first attempt with
no retry and no delay when the failure message is outside the
transient/race class; a failure in the class is retried (a success on
the second attempt returns success after one 100 ms backoff); and when
every attempt fails with an in-class message the loop re-attempts
exactly 3 more times with linear backoff delays 100, 200, 300 ms before
returning the failure. -/
theorem C6_retry_policy :
    (∀ (attempt : Nat → Attempt) (msg : String),
      attempt 0 = .failure msg → isRetryable msg = false →
      processFileWithRetry attempt 3 = ⟨false, some msg, 1, []⟩) ∧
    (∀ (attempt : Nat → Attempt) (msg : String),
      attempt 0 = .failure msg → isRetryable msg = true → attempt 1 = .success →
      processFileWithRetry attempt 3 = ⟨true, none, 2, [100]⟩) ∧
    (∀ msgs : Nat → String, (∀ n, isRetryable (msgs n) = true) →
      processFileWithRetry (fun n => .failure (msgs n)) 3
        = ⟨false, some (msgs 3), 4, [100, 200, 300]⟩) := by
  refine ⟨?_, ?_, ?_⟩
  · intro attempt msg h0 hr
    simp [processFileWithRetry, retryGo, h0, hr]
  · intro attempt msg h0 hr h1
    simp [processFileWithRetry, retryGo, h0, hr, h1]
  · intro msgs hr
    simp [processFileWithRetry, retryGo, hr]

/-- C6 (witness): the retry policy evaluated at a malformed-record
failure, at a transient duplicate-key failure that resolves on the
retry, and at a persistently conflicting record. -/
theorem C6_witness :
    processFileWithRetry (fun _ => .failure "Missing CVE ID") 3
      = ⟨false, some "Missing CVE ID", 1, []⟩ ∧
    processFileWithRetry (fun n => if n = 0 then .failure "E11000 duplicate key" else .success) 3
      = ⟨true, none, 2, [100]⟩ ∧
    processFileWithRetry (fun _ => .failure "VersionError: No matching document found") 3
      = ⟨false, some "VersionError: No matching document found", 4, [100, 200, 300]⟩ :=
  ⟨C6_retry_policy.1 (fun _ => .failure "Missing CVE ID") "Missing CVE ID" rfl (by decide),
   C6_retry_policy.2.1 (fun n => if n = 0 then .failure "E11000 duplicate key" else .success)
     "E11000 duplicate key" rfl (by decide) rfl,
   C6_retry_policy.2.2 (fun _ => "VersionError: No matching document found")
     (fun _ =>
       (by decide : isRetryable "VersionError: No matching document found" = true))⟩

/-! ## Lemmas about advisory counters -/

theorem countOf_cons {κ : Type} [DecidableEq κ] (q : κ × Nat) (rest : List (κ × Nat)) (k : κ) :
    countOf (q :: rest) k = if q.1 = k then q.2 else countOf rest k := by
  by_cases h : q.1 = k <;> simp [countOf, List.find?, h]

theorem any_false_countOf {κ : Type} [DecidableEq κ] (m : List (κ × Nat)) (k : κ)
    (h : m.any (fun p => p.1 = k) = false) : countOf m k = 0 := by
  induction m with
  | nil => rfl
  | cons q rest ih =>
    simp only [List.any_cons, Bool.or_eq_false_iff] at h
    rw [countOf_cons, if_neg (by simpa using h.1), ih h.2]

theorem countOf_append_one {κ : Type} [DecidableEq κ] (m : List (κ × Nat)) (k : κ)
    (h : m.any (fun p => p.1 = k) = false) : countOf (m ++ [(k, 1)]) k = 1 := by
  induction m with
  | nil => simp [countOf, List.find?]
  | cons q rest ih =>
    simp only [List.any_cons, Bool.or_eq_false_iff] at h
    rw [List.cons_append, countOf_cons, if_neg (by simpa using h.1), ih h.2]

theorem countOf_map_bump {κ : Type} [DecidableEq κ] (m : List (κ × Nat)) (k : κ)
    (h : m.any (fun p => p.1 = k) = true) :
    countOf (m.map (fun p => if p.1 = k then (k, p.2 + 1) else p)) k = countOf m k + 1 := by
  induction m with
  | nil => simp at h
  | cons q rest ih =>
    by_cases hq : q.1 = k
    · rw [List.map_cons, if_pos hq, countOf_cons, if_pos rfl, countOf_cons, if_pos hq]
    · simp only [List.any_cons, Bool.or_eq_true] at h
      have hr : rest.any (fun p => p.1 = k) = true := by
        rcases h with h | h
        · exact absurd (by simpa using h) hq
        · exact h
      rw [List.map_cons, if_neg hq, countOf_cons, if_neg hq, countOf_cons, if_neg hq, ih hr]

theorem countOf_bumpCount {κ : Type} [DecidableEq κ] (m : List (κ × Nat)) (k : κ) :
    countOf (bumpCount m k) k = countOf m k + 1 := by
  unfold bumpCount
  cases h : m.any (fun p => p.1 = k) with
  | true => rw [if_pos (by simp [h]), countOf_map_bump m k h]
  | false =>
    rw [if_neg (by simp [h]), countOf_append_one m k h, any_false_countOf m k h]

theorem products_fold_vendorCve (vn : String) (ps : List ExtractedProduct) :
    ∀ st : CountState,
      (List.foldl
        (fun st pd =>
          if pd.productName = "" then st
          else { st with productCve := bumpCount st.productCve (vn, pd.productName) })
        st ps).vendorCve = st.vendorCve := by
  induction ps with
  | nil => intro st; rfl
  | cons pd rest ih =>
    intro st
    by_cases h : pd.productName = "" <;> simp [List.foldl_cons, h, ih]

/-- C9 (counterexample): the claim says re-linking the same advisory
leaves the advisory counters unchanged; starting from empty counters,
linking the advisory with vendor "acme" / product "widget" once gives
both counters the value 1, and re-linking it raises both to 2 instead
of leaving them at 1. -/
theorem C9_counterexample :
    countOf (processVendorProductsCounts ⟨[], []⟩
        [⟨"acme", [⟨"widget", []⟩]⟩]).vendorCve "acme" = 1 ∧
    countOf (processVendorProductsCounts (processVendorProductsCounts ⟨[], []⟩
        [⟨"acme", [⟨"widget", []⟩]⟩]) [⟨"acme", [⟨"widget", []⟩]⟩]).vendorCve "acme" = 2 ∧
    countOf (processVendorProductsCounts (processVendorProductsCounts ⟨[], []⟩
        [⟨"acme", [⟨"widget", []⟩]⟩]) [⟨"acme", [⟨"widget", []⟩]⟩]).productCve
      ("acme", "widget") = 2 := by
  refine ⟨rfl, rfl, rfl⟩

/-- C9 (amended): every call to `processVendorProducts` increments the
advisory counter of each named vendor and product by exactly one —
unconditionally, so re-ingesting the same advisory increments the
counters again rather than leaving them unchanged (the counters
overcount under repeated ingestion). -/
theorem C9_counter_increments_every_link :
    (∀ (st : CountState) (v : String) (ps : List ExtractedProduct), v ≠ "" →
      countOf (processVendorProductsCounts st [⟨v, ps⟩]).vendorCve v
        = countOf st.vendorCve v + 1) ∧
    (∀ (st : CountState) (v pname : String) (vs : List VersionEntry), v ≠ "" → pname ≠ "" →
      countOf (processVendorProductsCounts st [⟨v, [⟨pname, vs⟩]⟩]).productCve (v, pname)
        = countOf st.productCve (v, pname) + 1) := by
  constructor
  · intro st v ps h
    simp only [processVendorProductsCounts, List.foldl_cons, List.foldl_nil]
    rw [if_neg h]
    simp only
    rw [countOf_bumpCount, products_fold_vendorCve]
  · intro st v pname vs hv hp
    simp only [processVendorProductsCounts, List.foldl_cons, List.foldl_nil]
    rw [if_neg hv]
    simp only [List.foldl_cons, List.foldl_nil]
    rw [if_neg hp]
    simp only
    rw [countOf_bumpCount]

/-- C9 (witness): re-linking the "acme"/"widget" advisory against
counters that already record one link bumps the vendor counter from 1
to 2. -/
theorem C9_witness :
    countOf (processVendorProductsCounts ⟨[("acme", 1)], [(("acme", "widget"), 1)]⟩
        [⟨"acme", [⟨"widget", []⟩]⟩]).vendorCve "acme"
      = countOf ([("acme", 1)] : List (String × Nat)) "acme" + 1 :=
  C9_counter_increments_every_link.1 ⟨[("acme", 1)], [(("acme", "widget"), 1)]⟩ "acme"
    [⟨"widget", []⟩] (by decide)

/-! ## Lemmas about the version merge and the advisory upsert -/

theorem optOr_none_right {β : Type} (a : Option β) : optOr a none = a := by
  cases a <;> rfl

theorem lookupVersion_cons (v : VersionEntry) (rest : List VersionEntry) (k : String) :
    lookupVersion (v :: rest) k = if v.version = k then some v.affected else lookupVersion rest k := by
  by_cases h : v.version = k <;> simp [lookupVersion, List.find?, h]

theorem lookupVersion_eq_none_of_not_mem (rest : List VersionEntry) (k : String)
    (h : k ∉ rest.map (fun v => v.version)) : lookupVersion rest k = none := by
  induction rest with
  | nil => rfl
  | cons v r ih =>
    simp only [List.map_cons, List.mem_cons, not_or] at h
    rw [lookupVersion_cons, if_neg (fun he => h.1 he.symm), ih h.2]

theorem lookupVersion_map_pairs (m : List (String × Bool)) (k : String) :
    lookupVersion (m.map (fun p => { version := p.1, affected := p.2 })) k = findEntry m k := by
  induction m with
  | nil => rfl
  | cons q rest ih =>
    rw [List.map_cons, lookupVersion_cons, findEntry_cons]
    by_cases h : q.1 = k <;> simp [h, ih]

theorem findEntry_append_other {β : Type} (m : List (String × β)) (k k' : String) (d : β)
    (h : k' ≠ k) : findEntry (m ++ [(k, d)]) k' = findEntry m k' := by
  induction m with
  | nil =>
    have hk : ¬(k = k') := fun he => h he.symm
    simp [findEntry, List.find?, hk]
  | cons q rest ih =>
    rw [List.cons_append, findEntry_cons, findEntry_cons, ih]

theorem findEntry_map_replace_other {β : Type} (m : List (String × β)) (k k' : String) (d : β)
    (h : k' ≠ k) : findEntry (m.map (replaceEntry k d)) k' = findEntry m k' := by
  induction m with
  | nil => rfl
  | cons q rest ih =>
    by_cases hq : q.1 = k
    · rw [List.map_cons, show replaceEntry k d q = (k, d) by simp [replaceEntry, hq],
        findEntry_cons, findEntry_cons, if_neg (fun he => h he.symm), if_neg (by rw [hq]; exact fun he => h he.symm), ih]
    · rw [List.map_cons, show replaceEntry k d q = q by simp [replaceEntry, hq],
        findEntry_cons, findEntry_cons, ih]

theorem findEntry_setEntry_other {β : Type} (m : List (String × β)) (k k' : String) (d : β)
    (h : k' ≠ k) : findEntry (setEntry m k d) k' = findEntry m k' := by
  cases hany : anyKey m k with
  | true => rw [setEntry_of_anyKey_true m k d hany, findEntry_map_replace_other m k k' d h]
  | false => rw [setEntry_of_anyKey_false m k d hany, findEntry_append_other m k k' d h]

theorem findEntry_fold_setEntry (vs : List VersionEntry)
    (hnd : (vs.map (fun v => v.version)).Nodup) :
    ∀ (init : List (String × Bool)) (k : String),
      findEntry (vs.foldl (fun m v => setEntry m v.version v.affected) init) k
        = optOr (lookupVersion vs k) (findEntry init k) := by
  induction vs with
  | nil =>
    intro init k
    simp [lookupVersion, optOr]
  | cons v rest ih =>
    rw [List.map_cons, List.nodup_cons] at hnd
    intro init k
    rw [List.foldl_cons, ih hnd.2, lookupVersion_cons]
    by_cases hk : v.version = k
    · subst hk
      rw [lookupVersion_eq_none_of_not_mem rest v.version hnd.1,
        findEntry_setEntry_self, if_pos rfl]
      rfl
    · rw [if_neg hk, findEntry_setEntry_other init v.version k v.affected (fun he => hk he.symm)]

theorem upsertCveRecord_eq_setEntry {Doc : Type} (store : List (String × Doc)) (k : String)
    (d : Doc) (o : UpsertOutcome) : upsertCveRecord store k d o = setEntry store k d := by
  cases o <;> rfl

/-- C3: merging a new version set into a stored one is keyed by version
label — for every label, the merged value is the new set's value when
the label is mentioned there and the stored value otherwise — and
resolving an offering twice through `Product.findOrCreate`, first with
versions 1.0:affected, then with 1.0:not-affected and 2.0:affected,
stores exactly 1.0:not-affected, 2.0:affected. -/
theorem C3_offering_version_merge :
    (∀ (stored newv : List VersionEntry),
      (stored.map (fun v => v.version)).Nodup →
      (newv.map (fun v => v.version)).Nodup →
      ∀ k, lookupVersion (mergeVersions stored newv) k
        = optOr (lookupVersion newv k) (lookupVersion stored k)) ∧
    (Product.findOrCreate ⟨"widget", 1, "acme", [⟨"1.0", true⟩]⟩ 5 none .ok none .ok none
      = .ok ⟨"widget", 1, "acme", [⟨"1.0", true⟩], 0, 5, 5⟩) ∧
    (Product.findOrCreate ⟨"widget", 1, "acme", [⟨"1.0", false⟩, ⟨"2.0", true⟩]⟩ 6
        (some ⟨"widget", 1, "acme", [⟨"1.0", true⟩], 0, 5, 5⟩) .ok none .ok none
      = .ok ⟨"widget", 1, "acme", [⟨"1.0", false⟩, ⟨"2.0", true⟩], 0, 5, 6⟩) := by
  refine ⟨?_, rfl, rfl⟩
  intro stored newv hs hn k
  unfold mergeVersions
  rw [lookupVersion_map_pairs, findEntry_fold_setEntry newv hn, findEntry_fold_setEntry stored hs]
  rw [findEntry_nil, optOr_none_right]

/-- C3 (witness): the merge lookup evaluated at the claim's example
sets. -/
theorem C3_witness :
    lookupVersion (mergeVersions [⟨"1.0", true⟩] [⟨"1.0", false⟩, ⟨"2.0", true⟩]) "1.0"
      = optOr (lookupVersion [⟨"1.0", false⟩, ⟨"2.0", true⟩] "1.0")
          (lookupVersion [⟨"1.0", true⟩] "1.0") :=
  C3_offering_version_merge.1 [⟨"1.0", true⟩] [⟨"1.0", false⟩, ⟨"2.0", true⟩]
    (by decide) (by decide) "1.0"

/-- C8: for a store whose unique index holds (at most one document per
id), upserting the same processed record twice — whichever of the two
code paths (the atomic find-and-replace, or the duplicate-key fallback)
each run takes — leaves the store of the first run unchanged, with
exactly one document stored under the id, carrying exactly the upserted
field values. -/
theorem C8_upsert_idempotent {Doc : Type} (store : List (String × Doc)) (cveId : String)
    (doc : Doc) (o1 o2 : UpsertOutcome) (h : keyCount store cveId ≤ 1) :
    upsertCveRecord (upsertCveRecord store cveId doc o1) cveId doc o2
      = upsertCveRecord store cveId doc o1 ∧
    findEntry (upsertCveRecord store cveId doc o1) cveId = some doc ∧
    keyCount (upsertCveRecord store cveId doc o1) cveId = 1 := by
  simp only [upsertCveRecord_eq_setEntry]
  exact ⟨setEntry_idem store cveId doc, findEntry_setEntry_self store cveId doc,
    keyCount_setEntry store cveId doc h⟩

/-- C8 (witness): double ingestion over a store already holding an
older version of the advisory, the second run racing into the
duplicate-key fallback path. -/
theorem C8_witness :
    keyCount ([("CVE-2024-0001", "old")] : List (String × String)) "CVE-2024-0001" ≤ 1 ∧
    (upsertCveRecord (upsertCveRecord [("CVE-2024-0001", "old")] "CVE-2024-0001" "new" .ok)
        "CVE-2024-0001" "new" .dupKey
       = upsertCveRecord [("CVE-2024-0001", "old")] "CVE-2024-0001" "new" .ok ∧
     findEntry (upsertCveRecord [("CVE-2024-0001", "old")] "CVE-2024-0001" "new" .ok)
        "CVE-2024-0001" = some "new" ∧
     keyCount (upsertCveRecord [("CVE-2024-0001", "old")] "CVE-2024-0001" "new" .ok)
        "CVE-2024-0001" = 1) :=
  ⟨by decide,
   C8_upsert_idempotent [("CVE-2024-0001", "old")] "CVE-2024-0001" "new" .ok .dupKey (by decide)⟩

/-! ## Lemmas about batch processing -/

theorem chunksGo_join {α : Type} (bs : Nat) (h : 0 < bs) :
    ∀ (fuel : Nat) (l : List α), l.length ≤ fuel → (chunksGo bs fuel l).flatten = l := by
  intro fuel
  induction fuel with
  | zero =>
    intro l hl
    have hnil : l = [] := List.length_eq_zero.mp (Nat.le_zero.mp hl)
    subst hnil
    rfl
  | succ n ih =>
    intro l hl
    cases l with
    | nil => rfl
    | cons a as =>
      have hlen : ((a :: as).drop bs).length ≤ n := by
        rw [List.length_drop]
        simp only [List.length_cons] at hl ⊢
        omega
      calc (chunksGo bs (n + 1) (a :: as)).flatten
          = (a :: as).take bs ++ (chunksGo bs n ((a :: as).drop bs)).flatten := rfl
        _ = (a :: as).take bs ++ (a :: as).drop bs := by rw [ih _ hlen]
        _ = a :: as := List.take_append_drop bs (a :: as)

theorem chunks_join {α : Type} (bs : Nat) (h : 0 < bs) (l : List α) :
    (chunks bs l).flatten = l :=
  chunksGo_join bs h l.length l le_rfl

theorem filter_ok_length (proc : String → FileOutcome) (b : List String) :
    ((b.map (fun fp => (fp, proc fp))).filter (fun r => r.2.isOk)).length
      = (b.filter (fun fp => (proc fp).isOk)).length := by
  induction b with
  | nil => rfl
  | cons a t ih =>
    cases h : (proc a).isOk <;> simp [List.filter_cons, h, ih]

theorem filter_fail_map (proc : String → FileOutcome) (b : List String) :
    ((b.map (fun fp => (fp, proc fp))).filter (fun r => !r.2.isOk)).map (fun r => r.1)
      = b.filter (fun fp => !(proc fp).isOk) := by
  induction b with
  | nil => rfl
  | cons a t ih =>
    cases h : (proc a).isOk <;> simp [List.filter_cons, h, ih]

theorem filter_fail_length (proc : String → FileOutcome) (b : List String) :
    ((b.map (fun fp => (fp, proc fp))).filter (fun r => !r.2.isOk)).length
      = (b.filter (fun fp => !(proc fp).isOk)).length := by
  rw [← filter_fail_map proc b, List.length_map]

theorem length_filter_add_not (p : String → Bool) (l : List String) :
    (l.filter p).length + (l.filter (fun a => !p a)).length = l.length := by
  induction l with
  | nil => rfl
  | cons a t ih =>
    cases h : p a <;> simp [List.filter_cons, h] <;> omega

theorem processBatch_fold (proc : String → FileOutcome) (bs : List (List String)) :
    ∀ (s f : Nat) (ff : List String),
      bs.foldl
        (fun (acc : Nat × Nat × List String) (batch : List String) =>
          let results := batch.map (fun fp => (fp, proc fp))
          ( acc.1 + (results.filter (fun r => r.2.isOk)).length
          , acc.2.1 + (results.filter (fun r => !r.2.isOk)).length
          , acc.2.2 ++ (results.filter (fun r => !r.2.isOk)).map (fun r => r.1) ))
        (s, f, ff)
      = ( s + (bs.flatten.filter (fun fp => (proc fp).isOk)).length
        , f + (bs.flatten.filter (fun fp => !(proc fp).isOk)).length
        , ff ++ bs.flatten.filter (fun fp => !(proc fp).isOk) ) := by
  induction bs with
  | nil => intro s f ff; simp
  | cons b rest ih =>
    intro s f ff
    rw [List.foldl_cons]
    simp only []
    rw [filter_ok_length, filter_fail_length, filter_fail_map, ih]
    simp [List.filter_append, Nat.add_assoc, List.append_assoc]

/-- C7: for every input list and positive window size, the batch run
returns a report whose `total` is the input length, whose `success` and
`failed` count exactly the records the per-record processing reported
as succeeded and failed (so total = success + failed), and whose
`failedFiles` lists exactly the failed locations in input order — one
entry per failed record; no failure aborts the run. -/
theorem C7_batch_report (files : List String) (proc : String → FileOutcome)
    (batchSize : Nat) (h : 0 < batchSize) :
    (processBatch files proc batchSize).total = files.length ∧
    (processBatch files proc batchSize).success
      = (files.filter (fun fp => (proc fp).isOk)).length ∧
    (processBatch files proc batchSize).failed
      = (files.filter (fun fp => !(proc fp).isOk)).length ∧
    (processBatch files proc batchSize).success + (processBatch files proc batchSize).failed
      = files.length ∧
    (processBatch files proc batchSize).failedFiles
      = files.filter (fun fp => !(proc fp).isOk) := by
  have hfold := processBatch_fold proc (chunks batchSize files) 0 0 []
  have hjoin := chunks_join batchSize h files
  rw [hjoin] at hfold
  refine ⟨rfl, ?_, ?_, ?_, ?_⟩
  · simp [processBatch, hfold]
  · simp [processBatch, hfold]
  · simp only [processBatch, hfold]
    simp only [Nat.zero_add]
    exact length_filter_add_not (fun fp => (proc fp).isOk) files
  · simp [processBatch, hfold]

/-- C7 (witness): a batch of 10 records where record 5 is malformed
yields total 10, success 9, failed 1, and only record 5's location
listed. -/
theorem C7_witness :
    0 < 100 ∧
    ((processBatch ["f1", "f2", "f3", "f4", "f5", "f6", "f7", "f8", "f9", "f10"]
        (fun fp => if fp = "f5" then .failed "CVE ID missing" else .ok) 100).total
      = (["f1", "f2", "f3", "f4", "f5", "f6", "f7", "f8", "f9", "f10"] : List String).length ∧
     (processBatch ["f1", "f2", "f3", "f4", "f5", "f6", "f7", "f8", "f9", "f10"]
        (fun fp => if fp = "f5" then .failed "CVE ID missing" else .ok) 100).success
      = ((["f1", "f2", "f3", "f4", "f5", "f6", "f7", "f8", "f9", "f10"] : List String).filter
          (fun fp => ((fun fp => if fp = "f5" then FileOutcome.failed "CVE ID missing"
            else FileOutcome.ok) fp).isOk)).length ∧
     (processBatch ["f1", "f2", "f3", "f4", "f5", "f6", "f7", "f8", "f9", "f10"]
        (fun fp => if fp = "f5" then .failed "CVE ID missing" else .ok) 100).failed
      = ((["f1", "f2", "f3", "f4", "f5", "f6", "f7", "f8", "f9", "f10"] : List String).filter
          (fun fp => !((fun fp => if fp = "f5" then FileOutcome.failed "CVE ID missing"
            else FileOutcome.ok) fp).isOk)).length ∧
     (processBatch ["f1", "f2", "f3", "f4", "f5", "f6", "f7", "f8", "f9", "f10"]
        (fun fp => if fp = "f5" then .failed "CVE ID missing" else .ok) 100).success
       + (processBatch ["f1", "f2", "f3", "f4", "f5", "f6", "f7", "f8", "f9", "f10"]
        (fun fp => if fp = "f5" then .failed "CVE ID missing" else .ok) 100).failed
      = (["f1", "f2", "f3", "f4", "f5", "f6", "f7", "f8", "f9", "f10"] : List String).length ∧
     (processBatch ["f1", "f2", "f3", "f4", "f5", "f6", "f7", "f8", "f9", "f10"]
        (fun fp => if fp = "f5" then .failed "CVE ID missing" else .ok) 100).failedFiles
      = (["f1", "f2", "f3", "f4", "f5", "f6", "f7", "f8", "f9", "f10"] : List String).filter
          (fun fp => !((fun fp => if fp = "f5" then FileOutcome.failed "CVE ID missing"
            else FileOutcome.ok) fp).isOk)) :=
  ⟨by decide,
   C7_batch_report ["f1", "f2", "f3", "f4", "f5", "f6", "f7", "f8", "f9", "f10"]
     (fun fp => if fp = "f5" then .failed "CVE ID missing" else .ok) 100 (by decide)⟩

end OneSync
